import Mathlib

/-
Shallow embedding of the Stewart acid-base calculator core
(physiology.js, compute.js, gamblegram.js, units.js) over the reals.

JavaScript doubles are modelled as real numbers; an input field that
parse() reports as blank/non-finite (it returns NaN for both) is
modelled as an absent `Option` value, since parse() collapses every
non-finite value to NaN and the compute pipeline only tests values
with Number.isFinite / coerces them with `|| 0`.
-/

/- ──────────────────────────  physiology.js  ────────────────────────── -/

/-- physiology.js `hco3FromPHandPco2`: Henderson–Hasselbalch,
`0.03 * pCO2 * 10^(pH - 6.1)`. -/
noncomputable def hco3FromPHandPco2 (pH pCO2 : ℝ) : ℝ :=
  0.03 * pCO2 * (10:ℝ) ^ (pH - 6.1)

/-- physiology.js `albuminCharge`, N→B conformational shift term
`NB = 0.4 * (1 - 1 / (1 + 10^(pH - 6.9)))`. -/
noncomputable def albNB (pH : ℝ) : ℝ :=
  0.4 * (1 - 1 / (1 + (10:ℝ) ^ (pH - 6.9)))

/-- physiology.js `HIS_NB`: pKa of the 5 NB-shifted domain-1 histidines. -/
noncomputable def HIS_NB : List ℝ := [7.12, 7.22, 7.10, 7.49, 7.01]

/-- physiology.js `HIS_STD`: pKa of the 11 unshifted histidines. -/
noncomputable def HIS_STD : List ℝ :=
  [7.31, 6.75, 6.36, 4.85, 5.76, 6.17, 6.73, 5.82, 5.10, 6.70, 6.20]

/-- physiology.js `albuminCharge`, histidine contribution: the two `for`
loops accumulating `1 / (1 + 10^(pH - (HIS_NB[i] - NB)))` and
`1 / (1 + 10^(pH - HIS_STD[i]))`. -/
noncomputable def albHis (pH : ℝ) : ℝ :=
  (HIS_NB.map (fun pk => 1 / (1 + (10:ℝ) ^ (pH - (pk - albNB pH))))).sum +
  (HIS_STD.map (fun pk => 1 / (1 + (10:ℝ) ^ (pH - pk)))).sum

/-- physiology.js `albuminCharge`, lysine contribution (6 sub-groups,
2+2+2+2+1+50 = 59 residues). -/
noncomputable def albLys (pH : ℝ) : ℝ :=
  2 / (1 + (10:ℝ) ^ (pH - 5.800))
    + 2 / (1 + (10:ℝ) ^ (pH - 6.150))
    + 2 / (1 + (10:ℝ) ^ (pH - 7.510))
    + 2 / (1 + (10:ℝ) ^ (pH - 7.685))
    + 1 / (1 + (10:ℝ) ^ (pH - 7.860))
    + 50 / (1 + (10:ℝ) ^ (pH - 10.30))

/-- physiology.js `albuminCharge`, 24 arginines at pKa 12.5. -/
noncomputable def albArg (pH : ℝ) : ℝ := 24 / (1 + (10:ℝ) ^ (pH - 12.5))

/-- physiology.js `albuminCharge`, N-terminal amino group at pKa 8.0. -/
noncomputable def albNH2 (pH : ℝ) : ℝ := 1 / (1 + (10:ℝ) ^ (pH - 8.0))

/-- physiology.js `albuminCharge`, C-terminal carboxyl at pKa 3.1. -/
noncomputable def albACOOH (pH : ℝ) : ℝ := -1 / (1 + (10:ℝ) ^ (3.1 - pH))

/-- physiology.js `albuminCharge`, 98 Asp+Glu at pKa 3.9. -/
noncomputable def albAspGlu (pH : ℝ) : ℝ := -98 / (1 + (10:ℝ) ^ (3.9 - pH))

/-- physiology.js `albuminCharge`, free cysteine thiol at pKa 8.5. -/
noncomputable def albCys (pH : ℝ) : ℝ := -1 / (1 + (10:ℝ) ^ (8.5 - pH))

/-- physiology.js `albuminCharge`, 18 tyrosines at pKa 11.7. -/
noncomputable def albTyr (pH : ℝ) : ℝ := -18 / (1 + (10:ℝ) ^ (11.7 - pH))

/-- physiology.js `albuminCharge`, `netPerMol = his + lys + arg + nh2 +
acooh + aspGlu + cys + tyr`. -/
noncomputable def albNetPerMol (pH : ℝ) : ℝ :=
  albHis pH + albLys pH + albArg pH + albNH2 pH
    + albACOOH pH + albAspGlu pH + albCys pH + albTyr pH

/-- physiology.js `albuminCharge`: `albMM = albGperL / 66.5`, result
`-albMM * netPerMol`. -/
noncomputable def albuminCharge (albGperL pH : ℝ) : ℝ :=
  -(albGperL / 66.5) * albNetPerMol pH

/-- physiology.js `phosphateCharge`: triprotic equilibrium with
pKa 1.915 / 6.66 / 11.78. -/
noncomputable def phosphateCharge (phos pH : ℝ) : ℝ :=
  let K1 := (10:ℝ) ^ (-1.915 : ℝ)
  let K2 := (10:ℝ) ^ (-6.66 : ℝ)
  let K3 := (10:ℝ) ^ (-11.78 : ℝ)
  let H := (10:ℝ) ^ (-pH)
  let d := H * H * H + K1 * H * H + K1 * K2 * H + K1 * K2 * K3
  let z := (K1 * H * H + 2 * K1 * K2 * H + 3 * K1 * K2 * K3) / d
  phos * z


/- ──────────────────────────  units.js  ────────────────────────── -/

/-- units.js `MG_FACTOR = 10 / 24.305` (mg/dL → mmol/L). -/
noncomputable def MG_FACTOR : ℝ := 10 / 24.305

/-- units.js `CA_FACTOR = 10 / 40.08`. -/
noncomputable def CA_FACTOR : ℝ := 10 / 40.08

/-- units.js `LAC_FACTOR = 10 / 89.07`. -/
noncomputable def LAC_FACTOR : ℝ := 10 / 89.07

/-- units.js `PO4_FACTOR = 10 / 30.97` (phosphate as P). -/
noncomputable def PO4_FACTOR : ℝ := 10 / 30.97

/-- The string ion ids that units.js dispatches on; ids other than
mg / ica / lac / phos fall through the `switch` unchanged. -/
inductive ConvId
  | mg
  | ica
  | lac
  | phos
  | other
deriving DecidableEq

/-- The unit-selector values of units.js; the source compares the
string against the literal tag. -/
inductive UnitTag
  | si
  | mgdl
deriving DecidableEq

/-- units.js `displayToSI(id, value, unit)`. The source first returns
NaN for a non-finite `value`; non-finite values are handled upstream in
this embedding, so only the finite branch is modelled. -/
noncomputable def displayToSI (id : ConvId) (value : ℝ) (unit : UnitTag) : ℝ :=
  match unit, id with
  | UnitTag.mgdl, ConvId.mg => value * MG_FACTOR
  | UnitTag.mgdl, ConvId.ica => value * CA_FACTOR
  | UnitTag.mgdl, ConvId.lac => value * LAC_FACTOR
  | UnitTag.mgdl, ConvId.phos => value * PO4_FACTOR
  | _, _ => value

/-- units.js `siToDisplay(id, si, unit)`, the inverse conversion. -/
noncomputable def siToDisplay (id : ConvId) (si : ℝ) (unit : UnitTag) : ℝ :=
  match unit, id with
  | UnitTag.mgdl, ConvId.mg => si / MG_FACTOR
  | UnitTag.mgdl, ConvId.ica => si / CA_FACTOR
  | UnitTag.mgdl, ConvId.lac => si / LAC_FACTOR
  | UnitTag.mgdl, ConvId.phos => si / PO4_FACTOR
  | _, _ => si

/- ──────────────────  gamblegram.js stack builder  ────────────────── -/

/-- The closed set of ion keys used by gamblegram.js (the source uses
string keys; spec section 9 prescribes a closed enum). -/
inductive IonKey
  | Na
  | K
  | iCa
  | Mg
  | Cl
  | Lactate
  | HCO3
  | Alb
  | Phos
  | Unknown
deriving DecidableEq

/-- One stacked-bar segment `{k, v}`. The source also carries a color
token resolved from CSS custom properties at render time; it is an
opaque presentation value and is not modelled. -/
structure Seg where
  k : IonKey
  v : ℝ

/-- The `x.k !== "Unknown"` / `x.k === "Unknown"` test of the `lift`
helper in gamblegram.js. -/
def isUnknown (s : Seg) : Bool :=
  match s.k with
  | IonKey.Unknown => true
  | _ => false

/-- The ordering realised by the comparator `(a, b) => (b.v || 0) -
(a.v || 0)` of gamblegram.js: descending by value. -/
def segDescOrder (a b : Seg) : Prop := b.v ≤ a.v

noncomputable instance : DecidableRel segDescOrder :=
  fun a b => inferInstanceAs (Decidable (b.v ≤ a.v))

instance : IsTotal Seg segDescOrder := ⟨fun a b => le_total b.v a.v⟩

instance : IsTrans Seg segDescOrder := ⟨fun _ _ _ hab hbc => le_trans hbc hab⟩

/-- gamblegram.js `lift`: sort the non-Unknown segments descending by
value (`Array.prototype.sort` modelled as a sorted permutation via
insertion sort) and append the Unknown segments at the end. -/
noncomputable def liftStack (arr : List Seg) : List Seg :=
  List.insertionSort segDescOrder (arr.filter (fun s => !isUnknown s))
    ++ arr.filter (fun s => isUnknown s)

/-- The `vals` payload handed to `renderGamblegram`; each field is
unpacked in the source with `|| 0`, so a NaN field is modelled as
`none`. -/
structure GGVals where
  Na : Option ℝ
  K : Option ℝ
  iCa : Option ℝ
  Mg_mmol : Option ℝ
  Cl : Option ℝ
  Lac : Option ℝ
  HCO3 : Option ℝ
  albMinus : Option ℝ
  piMinus : Option ℝ
  sig : Option ℝ

/-- The `x || 0` unpacking: an absent (NaN) value becomes 0. -/
def orZero (o : Option ℝ) : ℝ := o.getD 0

/-- gamblegram.js cation stack before `lift`: the four base segments,
plus `{Unknown, Math.abs(sig)}` pushed when `sig < -0.0001`. -/
noncomputable def cationsRaw (vals : GGVals) : List Seg :=
  let sig := orZero vals.sig
  let base : List Seg :=
    [⟨IonKey.Na, orZero vals.Na⟩, ⟨IonKey.K, orZero vals.K⟩,
      ⟨IonKey.iCa, orZero vals.iCa⟩, ⟨IonKey.Mg, orZero vals.Mg_mmol⟩]
  if sig < -0.0001 then base ++ [⟨IonKey.Unknown, |sig|⟩] else base

/-- gamblegram.js anion stack before `lift`: the five base segments,
plus `{Unknown, sig}` pushed when `sig > 0.0001`. -/
noncomputable def anionsRaw (vals : GGVals) : List Seg :=
  let sig := orZero vals.sig
  let base : List Seg :=
    [⟨IonKey.Cl, orZero vals.Cl⟩, ⟨IonKey.Lactate, orZero vals.Lac⟩,
      ⟨IonKey.HCO3, orZero vals.HCO3⟩, ⟨IonKey.Alb, orZero vals.albMinus⟩,
      ⟨IonKey.Phos, orZero vals.piMinus⟩]
  if (0.0001:ℝ) < sig then base ++ [⟨IonKey.Unknown, sig⟩] else base

/-- gamblegram.js: the two lifted stacks (cations, anions). -/
noncomputable def buildStacks (vals : GGVals) : List Seg × List Seg :=
  (liftStack (cationsRaw vals), liftStack (anionsRaw vals))

/- ──────────────────  compute.js aggregator  ────────────────── -/

/-- JavaScript `Math.round`: round half toward positive infinity. -/
noncomputable def jsRound (x : ℝ) : ℝ := ((⌊x + 1 / 2⌋ : ℤ) : ℝ)

/-- compute.js `Math.round(x * 10) / 10` (one-decimal display rounding). -/
noncomputable def round10 (x : ℝ) : ℝ := jsRound (x * 10) / 10

/-- The two-decimal rounding performed by `toFixed(2)` when compute.js
writes the derived bicarbonate back into the (then re-parsed) hco3
field. -/
noncomputable def round2 (x : ℝ) : ℝ := jsRound (x * 100) / 100

/-- The inputs computeAll reads: `getIonSI` / `parse` results (NaN
modelled as `none`), the BMP checkbox, and the current content of the
hco3 field as `parse("hco3")` would report it before computeAll writes
to it. -/
structure Inputs where
  Na : Option ℝ
  K : Option ℝ
  iCa : Option ℝ
  Mg : Option ℝ
  Cl : Option ℝ
  Lac : Option ℝ
  Alb : Option ℝ
  Phos : Option ℝ
  pH : Option ℝ
  pCO2 : Option ℝ
  hco3Field : Option ℝ
  useBmp : Bool

/-- compute.js `sidA = (Na||0) + (K||0) + 2*(iCa||0) + 2*(Mg||0) -
(Cl||0) - (Lac||0)`. -/
noncomputable def sidA (inp : Inputs) : ℝ :=
  orZero inp.Na + orZero inp.K + 2 * orZero inp.iCa + 2 * orZero inp.Mg
    - orZero inp.Cl - orZero inp.Lac

/-- compute.js `hco3FromGas`: derived only when pH and pCO2 are both
finite, otherwise NaN. -/
noncomputable def hco3FromGasOf (inp : Inputs) : Option ℝ :=
  match inp.pH, inp.pCO2 with
  | some ph, some pc => some (hco3FromPHandPco2 ph pc)
  | _, _ => none

/-- The hco3 field content after computeAll's DOM write: unchanged when
the BMP checkbox is on; otherwise overwritten with the derived value
formatted via `toFixed(2)` (blank when the gas value is NaN). -/
noncomputable def hco3FieldAfter (inp : Inputs) : Option ℝ :=
  if inp.useBmp then inp.hco3Field else (hco3FromGasOf inp).map round2

/-- compute.js `HCO3`: the parsed field value, falling back to the
derived gas value when the field parses as NaN. -/
noncomputable def effHCO3 (inp : Inputs) : Option ℝ :=
  match hco3FieldAfter inp with
  | some h => some h
  | none => hco3FromGasOf inp

/-- compute.js `albMinus`: `albuminCharge(Alb * 10, pH)` when albumin
and pH are both finite, else 0. -/
noncomputable def albMinusOf (inp : Inputs) : ℝ :=
  match inp.Alb, inp.pH with
  | some alb, some ph => albuminCharge (alb * 10) ph
  | _, _ => 0

/-- compute.js `piMinus`: `phosphateCharge(Phos, pH)` when phosphate
and pH are both finite, else 0. -/
noncomputable def piMinusOf (inp : Inputs) : ℝ :=
  match inp.Phos, inp.pH with
  | some phos, some ph => phosphateCharge phos ph
  | _, _ => 0

/-- compute.js `sidE = (HCO3 || 0) + albMinus + piMinus`. -/
noncomputable def sidE (inp : Inputs) : ℝ :=
  orZero (effHCO3 inp) + albMinusOf inp + piMinusOf inp

/-- compute.js `sig = sidA - sidE`. -/
noncomputable def sigOf (inp : Inputs) : ℝ := sidA inp - sidE inp

/-- compute.js `ag = (Na||0) + (K||0) - ((Cl||0) + (HCO3||0))`. -/
noncomputable def agOf (inp : Inputs) : ℝ :=
  orZero inp.Na + orZero inp.K - (orZero inp.Cl + orZero (effHCO3 inp))

/-- compute.js `sigR = Math.round(sig * 10) / 10`. -/
noncomputable def sigR (inp : Inputs) : ℝ := round10 (sigOf inp)

/-- compute.js `ggHCO3`: the measured BMP value when the checkbox is on
and the field parses, else the derived gas value, else `HCO3 || 0`. -/
noncomputable def ggHCO3Of (inp : Inputs) : ℝ :=
  match inp.useBmp, hco3FieldAfter inp with
  | true, some bmp => bmp
  | _, _ =>
    match hco3FromGasOf inp with
    | some g => g
    | none => orZero (effHCO3 inp)

/-- The argument object of the `renderGamblegram` call in computeAll:
iCa and Mg are doubled here (divalent → 2 mEq/mmol), and `sig` is the
rounded `sigR`. -/
noncomputable def ggPayload (inp : Inputs) : GGVals where
  Na := inp.Na
  K := inp.K
  iCa := some (2 * orZero inp.iCa)
  Mg_mmol := some (2 * orZero inp.Mg)
  Cl := inp.Cl
  Lac := inp.Lac
  HCO3 := some (ggHCO3Of inp)
  albMinus := some (albMinusOf inp)
  piMinus := some (piMinusOf inp)
  sig := some (sigR inp)

/- ──────────────  helper lemmas: bounding 10^x by rationals  ────────────── -/

theorem ten_rpow_nonneg (e : ℝ) : (0:ℝ) ≤ (10:ℝ) ^ e :=
  Real.rpow_nonneg (by norm_num) e

theorem ten_rpow_pow_eq {e : ℝ} (p : ℤ) (q : ℕ) (he : e * (q : ℝ) = (p : ℝ)) :
    ((10:ℝ) ^ e) ^ q = (10:ℝ) ^ p := by
  rw [← Real.rpow_natCast ((10:ℝ) ^ e) q,
    ← Real.rpow_mul (by norm_num : (0:ℝ) ≤ 10), he, Real.rpow_intCast]

/-- A rational lower bound on `10^e`: if `e = p / q` and `a^q ≤ 10^p`
then `a ≤ 10^e`. -/
theorem le_ten_rpow {a e : ℝ} (p : ℤ) (q : ℕ) (hq : q ≠ 0)
    (he : e * (q : ℝ) = (p : ℝ)) (ha : 0 ≤ a) (h : a ^ q ≤ (10:ℝ) ^ p) :
    a ≤ (10:ℝ) ^ e := by
  refine le_of_pow_le_pow_left₀ hq (ten_rpow_nonneg e) ?_
  rw [ten_rpow_pow_eq p q he]
  exact h

/-- A rational upper bound on `10^e`: if `e = p / q` and `10^p ≤ b^q`
then `10^e ≤ b`. -/
theorem ten_rpow_le {b e : ℝ} (p : ℤ) (q : ℕ) (hq : q ≠ 0)
    (he : e * (q : ℝ) = (p : ℝ)) (hb : 0 ≤ b) (h : (10:ℝ) ^ p ≤ b ^ q) :
    (10:ℝ) ^ e ≤ b := by
  refine le_of_pow_le_pow_left₀ hq hb ?_
  rw [ten_rpow_pow_eq p q he]
  exact h

/-- `x ↦ 1/(1+x)` is antitone: an upper bound from a lower bound on `x`. -/
theorem sig_mono_upper {X L : ℝ} (hL : 0 ≤ L) (h : L ≤ X) :
    1 / (1 + X) ≤ 1 / (1 + L) :=
  one_div_le_one_div_of_le (by linarith) (by linarith)

/-- `x ↦ 1/(1+x)` is antitone: a lower bound from an upper bound on `x`. -/
theorem sig_mono_lower {X U : ℝ} (hX : 0 ≤ X) (h : X ≤ U) :
    1 / (1 + U) ≤ 1 / (1 + X) :=
  one_div_le_one_div_of_le (by linarith) (by linarith)

/-- `x ↦ c/(1+x)` is antitone for `0 ≤ c`: upper bound. -/
theorem div_sig_upper {c X L : ℝ} (hc : 0 ≤ c) (hL : 0 ≤ L) (h : L ≤ X) :
    c / (1 + X) ≤ c / (1 + L) := by
  have h1 : (0:ℝ) < 1 + L := by linarith
  have h2 : (0:ℝ) < 1 + X := by linarith
  rw [div_le_div_iff₀ h2 h1]
  have := mul_le_mul_of_nonneg_left h hc
  linarith

/-- `x ↦ c/(1+x)` is antitone for `0 ≤ c`: lower bound. -/
theorem div_sig_lower {c X U : ℝ} (hc : 0 ≤ c) (hX : 0 ≤ X) (h : X ≤ U) :
    c / (1 + U) ≤ c / (1 + X) := by
  have h1 : (0:ℝ) < 1 + X := by linarith
  have h2 : (0:ℝ) < 1 + U := by linarith
  rw [div_le_div_iff₀ h2 h1]
  have := mul_le_mul_of_nonneg_left h hc
  linarith

/-- `x ↦ c/(1+x)` is monotone for `c ≤ 0`: upper bound. -/
theorem div_sig_le_of_le {c X U : ℝ} (hc : c ≤ 0) (hX : 0 ≤ X) (h : X ≤ U) :
    c / (1 + X) ≤ c / (1 + U) := by
  have h1 : (0:ℝ) < 1 + X := by linarith
  have h2 : (0:ℝ) < 1 + U := by linarith
  rw [div_le_div_iff₀ h1 h2]
  have := mul_le_mul_of_nonpos_left h hc
  linarith

/-- `x ↦ c/(1+x)` is monotone for `c ≤ 0`: lower bound. -/
theorem div_sig_ge_of_ge {c X L : ℝ} (hc : c ≤ 0) (hL : 0 ≤ L) (h : L ≤ X) :
    c / (1 + L) ≤ c / (1 + X) := by
  have h1 : (0:ℝ) < 1 + L := by linarith
  have h2 : (0:ℝ) < 1 + X := by linarith
  rw [div_le_div_iff₀ h1 h2]
  have := mul_le_mul_of_nonpos_left h hc
  linarith

/-- Interval product bound for three nonnegative factors. -/
theorem mul3_le_mul3 {a b c a' b' c' : ℝ} (ha : 0 ≤ a) (hb : 0 ≤ b)
    (hc : 0 ≤ c) (h1 : a ≤ a') (h2 : b ≤ b') (h3 : c ≤ c') :
    a * b * c ≤ a' * b' * c' := by
  have ha' : 0 ≤ a' := le_trans ha h1
  have hb' : 0 ≤ b' := le_trans hb h2
  exact mul_le_mul (mul_le_mul h1 h2 hb ha') h3 hc (mul_nonneg ha' hb')

/- ──────────────────────────  claim theorems (formula library)  ────────── -/

/-- C3 counterexample: at pH 7.40 and pCO2 40.0 the returned value
`0.03 * 40 * 10^1.30 = 23.9431…` is NOT within 0.01 of 23.97. -/
theorem claim_C3_counterexample :
    0.01 < |hco3FromPHandPco2 7.4 40 - 23.97| := by
  have hval : hco3FromPHandPco2 7.4 40 = 0.03 * 40 * (10:ℝ) ^ ((7.4:ℝ) - 6.1) :=
    rfl
  have hub : (10:ℝ) ^ ((7.4:ℝ) - 6.1) ≤ 19.95263 :=
    ten_rpow_le 13 10 (by norm_num) (by norm_num) (by norm_num) (by norm_num)
  rw [hval, abs_of_neg (by linarith)]
  linarith

/-- C3 (amended): `hco3FromPHandPco2` computes `0.03 * pCO2 * 10^(pH - 6.1)`
(alpha = 0.03, pKa = 6.1), and at pH 7.40 / pCO2 40.0 the result
`0.03 * 40 * 10^1.30` is approximately 23.94 within 0.01. -/
theorem claim_C3 :
    (∀ pH pCO2 : ℝ, hco3FromPHandPco2 pH pCO2 = 0.03 * pCO2 * (10:ℝ) ^ (pH - 6.1)) ∧
    |hco3FromPHandPco2 7.4 40 - 23.94| ≤ 0.01 := by
  refine ⟨fun pH pCO2 => rfl, ?_⟩
  have hval : hco3FromPHandPco2 7.4 40 = 0.03 * 40 * (10:ℝ) ^ ((7.4:ℝ) - 6.1) :=
    rfl
  have hlb : (19.95262:ℝ) ≤ (10:ℝ) ^ ((7.4:ℝ) - 6.1) :=
    le_ten_rpow 13 10 (by norm_num) (by norm_num) (by norm_num) (by norm_num)
  have hub : (10:ℝ) ^ ((7.4:ℝ) - 6.1) ≤ 19.95263 :=
    ten_rpow_le 13 10 (by norm_num) (by norm_num) (by norm_num) (by norm_num)
  rw [hval, abs_le]
  constructor <;> linarith

/-- C10: `albuminCharge` is homogeneous of degree 1 in the albumin
concentration: `albuminCharge (c*a) pH = c * albuminCharge a pH`, because
it factors as `-(a / 66.5) * albNetPerMol pH` with the whole pH dependence
in the concentration-independent factor `albNetPerMol pH`. -/
theorem claim_C10 :
    ∀ c a pH : ℝ, albuminCharge (c * a) pH = c * albuminCharge a pH ∧
      albuminCharge a pH = -(a / 66.5) * albNetPerMol pH := by
  intro c a pH
  constructor
  · show -(c * a / 66.5) * albNetPerMol pH = c * (-(a / 66.5) * albNetPerMol pH)
    ring
  · rfl

set_option maxHeartbeats 2000000 in
/-- C5: `phosphateCharge` returns `phos` times the closed-form mean negative
charge fraction `z = (K1*H^2 + 2*K1*K2*H + 3*K1*K2*K3) / (H^3 + K1*H^2 +
K1*K2*H + K1*K2*K3)` with `H = 10^-pH` and apparent pKa 1.915 / 6.66 / 11.78,
and at phosphate 1.0 mmol/L, pH 7.40 the result is within 0.03 of 1.85. -/
theorem claim_C5 :
    (∀ phos pH : ℝ, phosphateCharge phos pH =
      phos * (((10:ℝ) ^ (-1.915 : ℝ) * (10:ℝ) ^ (-pH) * (10:ℝ) ^ (-pH) + 2 * (10:ℝ) ^ (-1.915 : ℝ) * (10:ℝ) ^ (-6.66 : ℝ) * (10:ℝ) ^ (-pH) + 3 * (10:ℝ) ^ (-1.915 : ℝ) * (10:ℝ) ^ (-6.66 : ℝ) * (10:ℝ) ^ (-11.78 : ℝ)) /
        ((10:ℝ) ^ (-pH) * (10:ℝ) ^ (-pH) * (10:ℝ) ^ (-pH) + (10:ℝ) ^ (-1.915 : ℝ) * (10:ℝ) ^ (-pH) * (10:ℝ) ^ (-pH) + (10:ℝ) ^ (-1.915 : ℝ) * (10:ℝ) ^ (-6.66 : ℝ) * (10:ℝ) ^ (-pH) + (10:ℝ) ^ (-1.915 : ℝ) * (10:ℝ) ^ (-6.66 : ℝ) * (10:ℝ) ^ (-11.78 : ℝ)))) ∧
    |phosphateCharge 1 7.4 - 1.85| ≤ 0.03 := by
  refine ⟨fun phos pH => rfl, ?_⟩
  have hk1a : (0.0121618:ℝ) ≤ (10:ℝ) ^ (-1.915 : ℝ) :=
    le_ten_rpow (-383) 200 (by norm_num) (by norm_num) (by norm_num) (by norm_num)
  have hk1b : (10:ℝ) ^ (-1.915 : ℝ) ≤ (0.0121619:ℝ) :=
    ten_rpow_le (-383) 200 (by norm_num) (by norm_num) (by norm_num) (by norm_num)
  have hk2a : (0.000000218776:ℝ) ≤ (10:ℝ) ^ (-6.66 : ℝ) :=
    le_ten_rpow (-333) 50 (by norm_num) (by norm_num) (by norm_num) (by norm_num)
  have hk2b : (10:ℝ) ^ (-6.66 : ℝ) ≤ (0.000000218777:ℝ) :=
    ten_rpow_le (-333) 50 (by norm_num) (by norm_num) (by norm_num) (by norm_num)
  have hk3a : (0.00000000000165958:ℝ) ≤ (10:ℝ) ^ (-11.78 : ℝ) :=
    le_ten_rpow (-589) 50 (by norm_num) (by norm_num) (by norm_num) (by norm_num)
  have hk3b : (10:ℝ) ^ (-11.78 : ℝ) ≤ (0.00000000000165959:ℝ) :=
    ten_rpow_le (-589) 50 (by norm_num) (by norm_num) (by norm_num) (by norm_num)
  have hha : (0.0000000398107:ℝ) ≤ (10:ℝ) ^ (-(7.4:ℝ)) :=
    le_ten_rpow (-37) 5 (by norm_num) (by norm_num) (by norm_num) (by norm_num)
  have hhb : (10:ℝ) ^ (-(7.4:ℝ)) ≤ (0.0000000398108:ℝ) :=
    ten_rpow_le (-37) 5 (by norm_num) (by norm_num) (by norm_num) (by norm_num)
  have hm1a : (0.0121618:ℝ) * (0.0000000398107:ℝ) * (0.0000000398107:ℝ) ≤ (10:ℝ) ^ (-1.915 : ℝ) * (10:ℝ) ^ (-(7.4:ℝ)) * (10:ℝ) ^ (-(7.4:ℝ)) :=
    mul3_le_mul3 (by norm_num) (by norm_num) (by norm_num) hk1a hha hha
  have hm1b : (10:ℝ) ^ (-1.915 : ℝ) * (10:ℝ) ^ (-(7.4:ℝ)) * (10:ℝ) ^ (-(7.4:ℝ)) ≤ (0.0121619:ℝ) * (0.0000000398108:ℝ) * (0.0000000398108:ℝ) :=
    mul3_le_mul3 (ten_rpow_nonneg _) (ten_rpow_nonneg _) (ten_rpow_nonneg _) hk1b hhb hhb
  have hm2a : (0.0121618:ℝ) * (0.000000218776:ℝ) * (0.0000000398107:ℝ) ≤ (10:ℝ) ^ (-1.915 : ℝ) * (10:ℝ) ^ (-6.66 : ℝ) * (10:ℝ) ^ (-(7.4:ℝ)) :=
    mul3_le_mul3 (by norm_num) (by norm_num) (by norm_num) hk1a hk2a hha
  have hm2b : (10:ℝ) ^ (-1.915 : ℝ) * (10:ℝ) ^ (-6.66 : ℝ) * (10:ℝ) ^ (-(7.4:ℝ)) ≤ (0.0121619:ℝ) * (0.000000218777:ℝ) * (0.0000000398108:ℝ) :=
    mul3_le_mul3 (ten_rpow_nonneg _) (ten_rpow_nonneg _) (ten_rpow_nonneg _) hk1b hk2b hhb
  have hm3a : (0.0121618:ℝ) * (0.000000218776:ℝ) * (0.00000000000165958:ℝ) ≤ (10:ℝ) ^ (-1.915 : ℝ) * (10:ℝ) ^ (-6.66 : ℝ) * (10:ℝ) ^ (-11.78 : ℝ) :=
    mul3_le_mul3 (by norm_num) (by norm_num) (by norm_num) hk1a hk2a hk3a
  have hm3b : (10:ℝ) ^ (-1.915 : ℝ) * (10:ℝ) ^ (-6.66 : ℝ) * (10:ℝ) ^ (-11.78 : ℝ) ≤ (0.0121619:ℝ) * (0.000000218777:ℝ) * (0.00000000000165959:ℝ) :=
    mul3_le_mul3 (ten_rpow_nonneg _) (ten_rpow_nonneg _) (ten_rpow_nonneg _) hk1b hk2b hk3b
  have hm4a : (0.0000000398107:ℝ) * (0.0000000398107:ℝ) * (0.0000000398107:ℝ) ≤ (10:ℝ) ^ (-(7.4:ℝ)) * (10:ℝ) ^ (-(7.4:ℝ)) * (10:ℝ) ^ (-(7.4:ℝ)) :=
    mul3_le_mul3 (by norm_num) (by norm_num) (by norm_num) hha hha hha
  have hm4b : (10:ℝ) ^ (-(7.4:ℝ)) * (10:ℝ) ^ (-(7.4:ℝ)) * (10:ℝ) ^ (-(7.4:ℝ)) ≤ (0.0000000398108:ℝ) * (0.0000000398108:ℝ) * (0.0000000398108:ℝ) :=
    mul3_le_mul3 (ten_rpow_nonneg _) (ten_rpow_nonneg _) (ten_rpow_nonneg _) hhb hhb hhb
  have hval : phosphateCharge 1 7.4 =
      1 * (((10:ℝ) ^ (-1.915 : ℝ) * (10:ℝ) ^ (-(7.4:ℝ)) * (10:ℝ) ^ (-(7.4:ℝ)) + 2 * (10:ℝ) ^ (-1.915 : ℝ) * (10:ℝ) ^ (-6.66 : ℝ) * (10:ℝ) ^ (-(7.4:ℝ)) + 3 * (10:ℝ) ^ (-1.915 : ℝ) * (10:ℝ) ^ (-6.66 : ℝ) * (10:ℝ) ^ (-11.78 : ℝ)) /
        ((10:ℝ) ^ (-(7.4:ℝ)) * (10:ℝ) ^ (-(7.4:ℝ)) * (10:ℝ) ^ (-(7.4:ℝ)) + (10:ℝ) ^ (-1.915 : ℝ) * (10:ℝ) ^ (-(7.4:ℝ)) * (10:ℝ) ^ (-(7.4:ℝ)) + (10:ℝ) ^ (-1.915 : ℝ) * (10:ℝ) ^ (-6.66 : ℝ) * (10:ℝ) ^ (-(7.4:ℝ)) + (10:ℝ) ^ (-1.915 : ℝ) * (10:ℝ) ^ (-6.66 : ℝ) * (10:ℝ) ^ (-11.78 : ℝ))) := rfl
  have hDpos : (0:ℝ) < (10:ℝ) ^ (-(7.4:ℝ)) * (10:ℝ) ^ (-(7.4:ℝ)) * (10:ℝ) ^ (-(7.4:ℝ)) + (10:ℝ) ^ (-1.915 : ℝ) * (10:ℝ) ^ (-(7.4:ℝ)) * (10:ℝ) ^ (-(7.4:ℝ)) + (10:ℝ) ^ (-1.915 : ℝ) * (10:ℝ) ^ (-6.66 : ℝ) * (10:ℝ) ^ (-(7.4:ℝ)) + (10:ℝ) ^ (-1.915 : ℝ) * (10:ℝ) ^ (-6.66 : ℝ) * (10:ℝ) ^ (-11.78 : ℝ) := by
    linarith
  have hzu : ((10:ℝ) ^ (-1.915 : ℝ) * (10:ℝ) ^ (-(7.4:ℝ)) * (10:ℝ) ^ (-(7.4:ℝ)) + 2 * (10:ℝ) ^ (-1.915 : ℝ) * (10:ℝ) ^ (-6.66 : ℝ) * (10:ℝ) ^ (-(7.4:ℝ)) + 3 * (10:ℝ) ^ (-1.915 : ℝ) * (10:ℝ) ^ (-6.66 : ℝ) * (10:ℝ) ^ (-11.78 : ℝ)) /
      ((10:ℝ) ^ (-(7.4:ℝ)) * (10:ℝ) ^ (-(7.4:ℝ)) * (10:ℝ) ^ (-(7.4:ℝ)) + (10:ℝ) ^ (-1.915 : ℝ) * (10:ℝ) ^ (-(7.4:ℝ)) * (10:ℝ) ^ (-(7.4:ℝ)) + (10:ℝ) ^ (-1.915 : ℝ) * (10:ℝ) ^ (-6.66 : ℝ) * (10:ℝ) ^ (-(7.4:ℝ)) + (10:ℝ) ^ (-1.915 : ℝ) * (10:ℝ) ^ (-6.66 : ℝ) * (10:ℝ) ^ (-11.78 : ℝ)) ≤ 1.88 := by
    rw [div_le_iff₀ hDpos]
    linarith
  have hzl : (1.82:ℝ) ≤ ((10:ℝ) ^ (-1.915 : ℝ) * (10:ℝ) ^ (-(7.4:ℝ)) * (10:ℝ) ^ (-(7.4:ℝ)) + 2 * (10:ℝ) ^ (-1.915 : ℝ) * (10:ℝ) ^ (-6.66 : ℝ) * (10:ℝ) ^ (-(7.4:ℝ)) + 3 * (10:ℝ) ^ (-1.915 : ℝ) * (10:ℝ) ^ (-6.66 : ℝ) * (10:ℝ) ^ (-11.78 : ℝ)) /
      ((10:ℝ) ^ (-(7.4:ℝ)) * (10:ℝ) ^ (-(7.4:ℝ)) * (10:ℝ) ^ (-(7.4:ℝ)) + (10:ℝ) ^ (-1.915 : ℝ) * (10:ℝ) ^ (-(7.4:ℝ)) * (10:ℝ) ^ (-(7.4:ℝ)) + (10:ℝ) ^ (-1.915 : ℝ) * (10:ℝ) ^ (-6.66 : ℝ) * (10:ℝ) ^ (-(7.4:ℝ)) + (10:ℝ) ^ (-1.915 : ℝ) * (10:ℝ) ^ (-6.66 : ℝ) * (10:ℝ) ^ (-11.78 : ℝ)) := by
    rw [le_div_iff₀ hDpos]
    linarith
  rw [hval, abs_le]
  constructor <;> linarith


set_option maxHeartbeats 4000000 in
/-- C4: `albuminCharge` implements the full Figge-Fencl residue inventory
(16 histidines of which 5 are NB-shifted, 59 lysines in 6 groups, 24
arginines, 1 N-terminal amino, 1 C-terminal carboxyl, 98 Asp+Glu, 1
cysteine, 18 tyrosines, scaled by `-(albumin_gPerL / 66.5)`), and at
albumin 40 g/L, pH 7.40 it returns approximately 11.15 within 0.05. -/
theorem claim_C4 :
    (∀ a pH : ℝ, albuminCharge a pH = -(a / 66.5) *
      (albHis pH + albLys pH + albArg pH + albNH2 pH
        + albACOOH pH + albAspGlu pH + albCys pH + albTyr pH)) ∧
    HIS_NB.length = 5 ∧ HIS_STD.length = 11 ∧
    |albuminCharge 40 7.4 - 11.15| ≤ 0.05 := by
  refine ⟨fun a pH => rfl, rfl, rfl, ?_⟩
  have hsa : (3.1622:ℝ) ≤ (10:ℝ) ^ ((7.4:ℝ) - 6.9) :=
    le_ten_rpow 1 2 (by norm_num) (by norm_num) (by norm_num) (by norm_num)
  have hsb : (10:ℝ) ^ ((7.4:ℝ) - 6.9) ≤ (3.1623:ℝ) :=
    ten_rpow_le 1 2 (by norm_num) (by norm_num) (by norm_num) (by norm_num)
  have hsq1 : 1 / (1 + (10:ℝ) ^ ((7.4:ℝ) - 6.9)) ≤ 1 / (1 + (3.1622:ℝ)) :=
    sig_mono_upper (by norm_num) hsa
  have hsq2 : 1 / (1 + (3.1623:ℝ)) ≤ 1 / (1 + (10:ℝ) ^ ((7.4:ℝ) - 6.9)) :=
    sig_mono_lower (ten_rpow_nonneg _) hsb
  have hNBl : (0.30:ℝ) ≤ albNB 7.4 := by
    show (0.30:ℝ) ≤ 0.4 * (1 - 1 / (1 + (10:ℝ) ^ ((7.4:ℝ) - 6.9)))
    linarith
  have hNBu : albNB 7.4 ≤ (0.305:ℝ) := by
    show 0.4 * (1 - 1 / (1 + (10:ℝ) ^ ((7.4:ℝ) - 6.9))) ≤ (0.305:ℝ)
    linarith
  have he1a : (10:ℝ) ^ ((0.58:ℝ)) ≤ (10:ℝ) ^ ((7.4:ℝ) - (7.12 - albNB 7.4)) :=
    (Real.rpow_le_rpow_left_iff (by norm_num)).mpr (by linarith)
  have he1b : (10:ℝ) ^ ((7.4:ℝ) - (7.12 - albNB 7.4)) ≤ (10:ℝ) ^ ((0.585:ℝ)) :=
    (Real.rpow_le_rpow_left_iff (by norm_num)).mpr (by linarith)
  have hx1a : (3.8018:ℝ) ≤ (10:ℝ) ^ ((7.4:ℝ) - (7.12 - albNB 7.4)) :=
    le_trans (le_ten_rpow (29) 50 (by norm_num) (by norm_num) (by norm_num) (by norm_num)) he1a
  have hx1b : (10:ℝ) ^ ((7.4:ℝ) - (7.12 - albNB 7.4)) ≤ (3.846:ℝ) :=
    le_trans he1b (ten_rpow_le (117) 200 (by norm_num) (by norm_num) (by norm_num) (by norm_num))
  have ht1a : 1 / (1 + (3.846:ℝ)) ≤ 1 / (1 + (10:ℝ) ^ ((7.4:ℝ) - (7.12 - albNB 7.4))) :=
    sig_mono_lower (ten_rpow_nonneg _) hx1b
  have ht1b : 1 / (1 + (10:ℝ) ^ ((7.4:ℝ) - (7.12 - albNB 7.4))) ≤ 1 / (1 + (3.8018:ℝ)) :=
    sig_mono_upper (by norm_num) hx1a
  have he2a : (10:ℝ) ^ ((0.48:ℝ)) ≤ (10:ℝ) ^ ((7.4:ℝ) - (7.22 - albNB 7.4)) :=
    (Real.rpow_le_rpow_left_iff (by norm_num)).mpr (by linarith)
  have he2b : (10:ℝ) ^ ((7.4:ℝ) - (7.22 - albNB 7.4)) ≤ (10:ℝ) ^ ((0.485:ℝ)) :=
    (Real.rpow_le_rpow_left_iff (by norm_num)).mpr (by linarith)
  have hx2a : (3.0199:ℝ) ≤ (10:ℝ) ^ ((7.4:ℝ) - (7.22 - albNB 7.4)) :=
    le_trans (le_ten_rpow (12) 25 (by norm_num) (by norm_num) (by norm_num) (by norm_num)) he2a
  have hx2b : (10:ℝ) ^ ((7.4:ℝ) - (7.22 - albNB 7.4)) ≤ (3.055:ℝ) :=
    le_trans he2b (ten_rpow_le (97) 200 (by norm_num) (by norm_num) (by norm_num) (by norm_num))
  have ht2a : 1 / (1 + (3.055:ℝ)) ≤ 1 / (1 + (10:ℝ) ^ ((7.4:ℝ) - (7.22 - albNB 7.4))) :=
    sig_mono_lower (ten_rpow_nonneg _) hx2b
  have ht2b : 1 / (1 + (10:ℝ) ^ ((7.4:ℝ) - (7.22 - albNB 7.4))) ≤ 1 / (1 + (3.0199:ℝ)) :=
    sig_mono_upper (by norm_num) hx2a
  have he3a : (10:ℝ) ^ ((0.6:ℝ)) ≤ (10:ℝ) ^ ((7.4:ℝ) - (7.10 - albNB 7.4)) :=
    (Real.rpow_le_rpow_left_iff (by norm_num)).mpr (by linarith)
  have he3b : (10:ℝ) ^ ((7.4:ℝ) - (7.10 - albNB 7.4)) ≤ (10:ℝ) ^ ((0.605:ℝ)) :=
    (Real.rpow_le_rpow_left_iff (by norm_num)).mpr (by linarith)
  have hx3a : (3.981:ℝ) ≤ (10:ℝ) ^ ((7.4:ℝ) - (7.10 - albNB 7.4)) :=
    le_trans (le_ten_rpow (3) 5 (by norm_num) (by norm_num) (by norm_num) (by norm_num)) he3a
  have hx3b : (10:ℝ) ^ ((7.4:ℝ) - (7.10 - albNB 7.4)) ≤ (4.0272:ℝ) :=
    le_trans he3b (ten_rpow_le (121) 200 (by norm_num) (by norm_num) (by norm_num) (by norm_num))
  have ht3a : 1 / (1 + (4.0272:ℝ)) ≤ 1 / (1 + (10:ℝ) ^ ((7.4:ℝ) - (7.10 - albNB 7.4))) :=
    sig_mono_lower (ten_rpow_nonneg _) hx3b
  have ht3b : 1 / (1 + (10:ℝ) ^ ((7.4:ℝ) - (7.10 - albNB 7.4))) ≤ 1 / (1 + (3.981:ℝ)) :=
    sig_mono_upper (by norm_num) hx3a
  have he4a : (10:ℝ) ^ ((0.21:ℝ)) ≤ (10:ℝ) ^ ((7.4:ℝ) - (7.49 - albNB 7.4)) :=
    (Real.rpow_le_rpow_left_iff (by norm_num)).mpr (by linarith)
  have he4b : (10:ℝ) ^ ((7.4:ℝ) - (7.49 - albNB 7.4)) ≤ (10:ℝ) ^ ((0.215:ℝ)) :=
    (Real.rpow_le_rpow_left_iff (by norm_num)).mpr (by linarith)
  have hx4a : (1.6218:ℝ) ≤ (10:ℝ) ^ ((7.4:ℝ) - (7.49 - albNB 7.4)) :=
    le_trans (le_ten_rpow (21) 100 (by norm_num) (by norm_num) (by norm_num) (by norm_num)) he4a
  have hx4b : (10:ℝ) ^ ((7.4:ℝ) - (7.49 - albNB 7.4)) ≤ (1.6406:ℝ) :=
    le_trans he4b (ten_rpow_le (43) 200 (by norm_num) (by norm_num) (by norm_num) (by norm_num))
  have ht4a : 1 / (1 + (1.6406:ℝ)) ≤ 1 / (1 + (10:ℝ) ^ ((7.4:ℝ) - (7.49 - albNB 7.4))) :=
    sig_mono_lower (ten_rpow_nonneg _) hx4b
  have ht4b : 1 / (1 + (10:ℝ) ^ ((7.4:ℝ) - (7.49 - albNB 7.4))) ≤ 1 / (1 + (1.6218:ℝ)) :=
    sig_mono_upper (by norm_num) hx4a
  have he5a : (10:ℝ) ^ ((0.69:ℝ)) ≤ (10:ℝ) ^ ((7.4:ℝ) - (7.01 - albNB 7.4)) :=
    (Real.rpow_le_rpow_left_iff (by norm_num)).mpr (by linarith)
  have he5b : (10:ℝ) ^ ((7.4:ℝ) - (7.01 - albNB 7.4)) ≤ (10:ℝ) ^ ((0.695:ℝ)) :=
    (Real.rpow_le_rpow_left_iff (by norm_num)).mpr (by linarith)
  have hx5a : (4.8977:ℝ) ≤ (10:ℝ) ^ ((7.4:ℝ) - (7.01 - albNB 7.4)) :=
    le_trans (le_ten_rpow (69) 100 (by norm_num) (by norm_num) (by norm_num) (by norm_num)) he5a
  have hx5b : (10:ℝ) ^ ((7.4:ℝ) - (7.01 - albNB 7.4)) ≤ (4.9546:ℝ) :=
    le_trans he5b (ten_rpow_le (139) 200 (by norm_num) (by norm_num) (by norm_num) (by norm_num))
  have ht5a : 1 / (1 + (4.9546:ℝ)) ≤ 1 / (1 + (10:ℝ) ^ ((7.4:ℝ) - (7.01 - albNB 7.4))) :=
    sig_mono_lower (ten_rpow_nonneg _) hx5b
  have ht5b : 1 / (1 + (10:ℝ) ^ ((7.4:ℝ) - (7.01 - albNB 7.4))) ≤ 1 / (1 + (4.8977:ℝ)) :=
    sig_mono_upper (by norm_num) hx5a
  have ht6a : 1 / (1 + (1.2303:ℝ)) ≤ 1 / (1 + (10:ℝ) ^ ((7.4:ℝ) - 7.31)) :=
    div_sig_lower (by norm_num) (ten_rpow_nonneg _)
      (ten_rpow_le (9) 100 (by norm_num) (by norm_num) (by norm_num) (by norm_num))
  have ht6b : 1 / (1 + (10:ℝ) ^ ((7.4:ℝ) - 7.31)) ≤ 1 / (1 + (1.2302:ℝ)) :=
    div_sig_upper (by norm_num) (by norm_num)
      (le_ten_rpow (9) 100 (by norm_num) (by norm_num) (by norm_num) (by norm_num))
  have ht7a : 1 / (1 + (4.4669:ℝ)) ≤ 1 / (1 + (10:ℝ) ^ ((7.4:ℝ) - 6.75)) :=
    div_sig_lower (by norm_num) (ten_rpow_nonneg _)
      (ten_rpow_le (13) 20 (by norm_num) (by norm_num) (by norm_num) (by norm_num))
  have ht7b : 1 / (1 + (10:ℝ) ^ ((7.4:ℝ) - 6.75)) ≤ 1 / (1 + (4.4668:ℝ)) :=
    div_sig_upper (by norm_num) (by norm_num)
      (le_ten_rpow (13) 20 (by norm_num) (by norm_num) (by norm_num) (by norm_num))
  have ht8a : 1 / (1 + (10.965:ℝ)) ≤ 1 / (1 + (10:ℝ) ^ ((7.4:ℝ) - 6.36)) :=
    div_sig_lower (by norm_num) (ten_rpow_nonneg _)
      (ten_rpow_le (26) 25 (by norm_num) (by norm_num) (by norm_num) (by norm_num))
  have ht8b : 1 / (1 + (10:ℝ) ^ ((7.4:ℝ) - 6.36)) ≤ 1 / (1 + (10.964:ℝ)) :=
    div_sig_upper (by norm_num) (by norm_num)
      (le_ten_rpow (26) 25 (by norm_num) (by norm_num) (by norm_num) (by norm_num))
  have ht9a : 1 / (1 + (354.82:ℝ)) ≤ 1 / (1 + (10:ℝ) ^ ((7.4:ℝ) - 4.85)) :=
    div_sig_lower (by norm_num) (ten_rpow_nonneg _)
      (ten_rpow_le (51) 20 (by norm_num) (by norm_num) (by norm_num) (by norm_num))
  have ht9b : 1 / (1 + (10:ℝ) ^ ((7.4:ℝ) - 4.85)) ≤ 1 / (1 + (354.81:ℝ)) :=
    div_sig_upper (by norm_num) (by norm_num)
      (le_ten_rpow (51) 20 (by norm_num) (by norm_num) (by norm_num) (by norm_num))
  have ht10a : 1 / (1 + (43.652:ℝ)) ≤ 1 / (1 + (10:ℝ) ^ ((7.4:ℝ) - 5.76)) :=
    div_sig_lower (by norm_num) (ten_rpow_nonneg _)
      (ten_rpow_le (41) 25 (by norm_num) (by norm_num) (by norm_num) (by norm_num))
  have ht10b : 1 / (1 + (10:ℝ) ^ ((7.4:ℝ) - 5.76)) ≤ 1 / (1 + (43.651:ℝ)) :=
    div_sig_upper (by norm_num) (by norm_num)
      (le_ten_rpow (41) 25 (by norm_num) (by norm_num) (by norm_num) (by norm_num))
  have ht11a : 1 / (1 + (16.983:ℝ)) ≤ 1 / (1 + (10:ℝ) ^ ((7.4:ℝ) - 6.17)) :=
    div_sig_lower (by norm_num) (ten_rpow_nonneg _)
      (ten_rpow_le (123) 100 (by norm_num) (by norm_num) (by norm_num) (by norm_num))
  have ht11b : 1 / (1 + (10:ℝ) ^ ((7.4:ℝ) - 6.17)) ≤ 1 / (1 + (16.982:ℝ)) :=
    div_sig_upper (by norm_num) (by norm_num)
      (le_ten_rpow (123) 100 (by norm_num) (by norm_num) (by norm_num) (by norm_num))
  have ht12a : 1 / (1 + (4.6774:ℝ)) ≤ 1 / (1 + (10:ℝ) ^ ((7.4:ℝ) - 6.73)) :=
    div_sig_lower (by norm_num) (ten_rpow_nonneg _)
      (ten_rpow_le (67) 100 (by norm_num) (by norm_num) (by norm_num) (by norm_num))
  have ht12b : 1 / (1 + (10:ℝ) ^ ((7.4:ℝ) - 6.73)) ≤ 1 / (1 + (4.6773:ℝ)) :=
    div_sig_upper (by norm_num) (by norm_num)
      (le_ten_rpow (67) 100 (by norm_num) (by norm_num) (by norm_num) (by norm_num))
  have ht13a : 1 / (1 + (38.019:ℝ)) ≤ 1 / (1 + (10:ℝ) ^ ((7.4:ℝ) - 5.82)) :=
    div_sig_lower (by norm_num) (ten_rpow_nonneg _)
      (ten_rpow_le (79) 50 (by norm_num) (by norm_num) (by norm_num) (by norm_num))
  have ht13b : 1 / (1 + (10:ℝ) ^ ((7.4:ℝ) - 5.82)) ≤ 1 / (1 + (38.018:ℝ)) :=
    div_sig_upper (by norm_num) (by norm_num)
      (le_ten_rpow (79) 50 (by norm_num) (by norm_num) (by norm_num) (by norm_num))
  have ht14a : 1 / (1 + (199.53:ℝ)) ≤ 1 / (1 + (10:ℝ) ^ ((7.4:ℝ) - 5.10)) :=
    div_sig_lower (by norm_num) (ten_rpow_nonneg _)
      (ten_rpow_le (23) 10 (by norm_num) (by norm_num) (by norm_num) (by norm_num))
  have ht14b : 1 / (1 + (10:ℝ) ^ ((7.4:ℝ) - 5.10)) ≤ 1 / (1 + (199.52:ℝ)) :=
    div_sig_upper (by norm_num) (by norm_num)
      (le_ten_rpow (23) 10 (by norm_num) (by norm_num) (by norm_num) (by norm_num))
  have ht15a : 1 / (1 + (5.0119:ℝ)) ≤ 1 / (1 + (10:ℝ) ^ ((7.4:ℝ) - 6.70)) :=
    div_sig_lower (by norm_num) (ten_rpow_nonneg _)
      (ten_rpow_le (7) 10 (by norm_num) (by norm_num) (by norm_num) (by norm_num))
  have ht15b : 1 / (1 + (10:ℝ) ^ ((7.4:ℝ) - 6.70)) ≤ 1 / (1 + (5.0118:ℝ)) :=
    div_sig_upper (by norm_num) (by norm_num)
      (le_ten_rpow (7) 10 (by norm_num) (by norm_num) (by norm_num) (by norm_num))
  have ht16a : 1 / (1 + (15.849:ℝ)) ≤ 1 / (1 + (10:ℝ) ^ ((7.4:ℝ) - 6.20)) :=
    div_sig_lower (by norm_num) (ten_rpow_nonneg _)
      (ten_rpow_le (6) 5 (by norm_num) (by norm_num) (by norm_num) (by norm_num))
  have ht16b : 1 / (1 + (10:ℝ) ^ ((7.4:ℝ) - 6.20)) ≤ 1 / (1 + (15.848:ℝ)) :=
    div_sig_upper (by norm_num) (by norm_num)
      (le_ten_rpow (6) 5 (by norm_num) (by norm_num) (by norm_num) (by norm_num))
  have ht17a : 2 / (1 + (39.811:ℝ)) ≤ 2 / (1 + (10:ℝ) ^ ((7.4:ℝ) - 5.800)) :=
    div_sig_lower (by norm_num) (ten_rpow_nonneg _)
      (ten_rpow_le (8) 5 (by norm_num) (by norm_num) (by norm_num) (by norm_num))
  have ht17b : 2 / (1 + (10:ℝ) ^ ((7.4:ℝ) - 5.800)) ≤ 2 / (1 + (39.81:ℝ)) :=
    div_sig_upper (by norm_num) (by norm_num)
      (le_ten_rpow (8) 5 (by norm_num) (by norm_num) (by norm_num) (by norm_num))
  have ht18a : 2 / (1 + (17.783:ℝ)) ≤ 2 / (1 + (10:ℝ) ^ ((7.4:ℝ) - 6.150)) :=
    div_sig_lower (by norm_num) (ten_rpow_nonneg _)
      (ten_rpow_le (5) 4 (by norm_num) (by norm_num) (by norm_num) (by norm_num))
  have ht18b : 2 / (1 + (10:ℝ) ^ ((7.4:ℝ) - 6.150)) ≤ 2 / (1 + (17.782:ℝ)) :=
    div_sig_upper (by norm_num) (by norm_num)
      (le_ten_rpow (5) 4 (by norm_num) (by norm_num) (by norm_num) (by norm_num))
  have ht19a : 2 / (1 + (0.77625:ℝ)) ≤ 2 / (1 + (10:ℝ) ^ ((7.4:ℝ) - 7.510)) :=
    div_sig_lower (by norm_num) (ten_rpow_nonneg _)
      (ten_rpow_le (-11) 100 (by norm_num) (by norm_num) (by norm_num) (by norm_num))
  have ht19b : 2 / (1 + (10:ℝ) ^ ((7.4:ℝ) - 7.510)) ≤ 2 / (1 + (0.77624:ℝ)) :=
    div_sig_upper (by norm_num) (by norm_num)
      (le_ten_rpow (-11) 100 (by norm_num) (by norm_num) (by norm_num) (by norm_num))
  have ht20a : 2 / (1 + (0.51881:ℝ)) ≤ 2 / (1 + (10:ℝ) ^ ((7.4:ℝ) - 7.685)) :=
    div_sig_lower (by norm_num) (ten_rpow_nonneg _)
      (ten_rpow_le (-57) 200 (by norm_num) (by norm_num) (by norm_num) (by norm_num))
  have ht20b : 2 / (1 + (10:ℝ) ^ ((7.4:ℝ) - 7.685)) ≤ 2 / (1 + (0.5188:ℝ)) :=
    div_sig_upper (by norm_num) (by norm_num)
      (le_ten_rpow (-57) 200 (by norm_num) (by norm_num) (by norm_num) (by norm_num))
  have ht21a : 1 / (1 + (0.34674:ℝ)) ≤ 1 / (1 + (10:ℝ) ^ ((7.4:ℝ) - 7.860)) :=
    div_sig_lower (by norm_num) (ten_rpow_nonneg _)
      (ten_rpow_le (-23) 50 (by norm_num) (by norm_num) (by norm_num) (by norm_num))
  have ht21b : 1 / (1 + (10:ℝ) ^ ((7.4:ℝ) - 7.860)) ≤ 1 / (1 + (0.34673:ℝ)) :=
    div_sig_upper (by norm_num) (by norm_num)
      (le_ten_rpow (-23) 50 (by norm_num) (by norm_num) (by norm_num) (by norm_num))
  have ht22a : 50 / (1 + (0.001259:ℝ)) ≤ 50 / (1 + (10:ℝ) ^ ((7.4:ℝ) - 10.30)) :=
    div_sig_lower (by norm_num) (ten_rpow_nonneg _)
      (ten_rpow_le (-29) 10 (by norm_num) (by norm_num) (by norm_num) (by norm_num))
  have ht22b : 50 / (1 + (10:ℝ) ^ ((7.4:ℝ) - 10.30)) ≤ 50 / (1 + (0.0012589:ℝ)) :=
    div_sig_upper (by norm_num) (by norm_num)
      (le_ten_rpow (-29) 10 (by norm_num) (by norm_num) (by norm_num) (by norm_num))
  have ht23a : 24 / (1 + (0.0000079433:ℝ)) ≤ 24 / (1 + (10:ℝ) ^ ((7.4:ℝ) - 12.5)) :=
    div_sig_lower (by norm_num) (ten_rpow_nonneg _)
      (ten_rpow_le (-51) 10 (by norm_num) (by norm_num) (by norm_num) (by norm_num))
  have ht23b : 24 / (1 + (10:ℝ) ^ ((7.4:ℝ) - 12.5)) ≤ 24 / (1 + (0.0000079432:ℝ)) :=
    div_sig_upper (by norm_num) (by norm_num)
      (le_ten_rpow (-51) 10 (by norm_num) (by norm_num) (by norm_num) (by norm_num))
  have ht24a : 1 / (1 + (0.25119:ℝ)) ≤ 1 / (1 + (10:ℝ) ^ ((7.4:ℝ) - 8.0)) :=
    div_sig_lower (by norm_num) (ten_rpow_nonneg _)
      (ten_rpow_le (-3) 5 (by norm_num) (by norm_num) (by norm_num) (by norm_num))
  have ht24b : 1 / (1 + (10:ℝ) ^ ((7.4:ℝ) - 8.0)) ≤ 1 / (1 + (0.25118:ℝ)) :=
    div_sig_upper (by norm_num) (by norm_num)
      (le_ten_rpow (-3) 5 (by norm_num) (by norm_num) (by norm_num) (by norm_num))
  have ht25a : -1 / (1 + (0.000050118:ℝ)) ≤ -1 / (1 + (10:ℝ) ^ ((3.1:ℝ) - 7.4)) :=
    div_sig_ge_of_ge (by norm_num) (by norm_num)
      (le_ten_rpow (-43) 10 (by norm_num) (by norm_num) (by norm_num) (by norm_num))
  have ht25b : -1 / (1 + (10:ℝ) ^ ((3.1:ℝ) - 7.4)) ≤ -1 / (1 + (0.000050119:ℝ)) :=
    div_sig_le_of_le (by norm_num) (ten_rpow_nonneg _)
      (ten_rpow_le (-43) 10 (by norm_num) (by norm_num) (by norm_num) (by norm_num))
  have ht26a : -98 / (1 + (0.00031622:ℝ)) ≤ -98 / (1 + (10:ℝ) ^ ((3.9:ℝ) - 7.4)) :=
    div_sig_ge_of_ge (by norm_num) (by norm_num)
      (le_ten_rpow (-7) 2 (by norm_num) (by norm_num) (by norm_num) (by norm_num))
  have ht26b : -98 / (1 + (10:ℝ) ^ ((3.9:ℝ) - 7.4)) ≤ -98 / (1 + (0.00031623:ℝ)) :=
    div_sig_le_of_le (by norm_num) (ten_rpow_nonneg _)
      (ten_rpow_le (-7) 2 (by norm_num) (by norm_num) (by norm_num) (by norm_num))
  have ht27a : -1 / (1 + (12.589:ℝ)) ≤ -1 / (1 + (10:ℝ) ^ ((8.5:ℝ) - 7.4)) :=
    div_sig_ge_of_ge (by norm_num) (by norm_num)
      (le_ten_rpow (11) 10 (by norm_num) (by norm_num) (by norm_num) (by norm_num))
  have ht27b : -1 / (1 + (10:ℝ) ^ ((8.5:ℝ) - 7.4)) ≤ -1 / (1 + (12.59:ℝ)) :=
    div_sig_le_of_le (by norm_num) (ten_rpow_nonneg _)
      (ten_rpow_le (11) 10 (by norm_num) (by norm_num) (by norm_num) (by norm_num))
  have ht28a : -18 / (1 + (19952:ℝ)) ≤ -18 / (1 + (10:ℝ) ^ ((11.7:ℝ) - 7.4)) :=
    div_sig_ge_of_ge (by norm_num) (by norm_num)
      (le_ten_rpow (43) 10 (by norm_num) (by norm_num) (by norm_num) (by norm_num))
  have ht28b : -18 / (1 + (10:ℝ) ^ ((11.7:ℝ) - 7.4)) ≤ -18 / (1 + (19953:ℝ)) :=
    div_sig_le_of_le (by norm_num) (ten_rpow_nonneg _)
      (ten_rpow_le (43) 10 (by norm_num) (by norm_num) (by norm_num) (by norm_num))
  have hval : albuminCharge 40 7.4 = -(40 / 66.5) * albNetPerMol 7.4 := rfl
  rw [hval, abs_le]
  constructor <;>
  · simp only [albNetPerMol, albHis, albLys, albArg, albNH2, albACOOH,
      albAspGlu, albCys, albTyr, HIS_NB, HIS_STD, List.map_cons, List.map_nil,
      List.sum_cons, List.sum_nil]
    linarith

/- ──────────────  helper lemmas: the lift / stack machinery  ────────────── -/

theorem mem_insertionSort_filter {l : List Seg} {s : Seg}
    (hs : s ∈ List.insertionSort segDescOrder (l.filter (fun x => !isUnknown x))) :
    isUnknown s = false := by
  have hs' : s ∈ l.filter (fun x => !isUnknown x) := by
    simpa using hs
  have h2 := (List.mem_filter.mp hs').2
  simpa using h2

/-- `lift` returns a permutation of its input. -/
theorem liftStack_perm (l : List Seg) : (liftStack l).Perm l := by
  unfold liftStack
  have h1 : (List.insertionSort segDescOrder
      (l.filter (fun s => !isUnknown s))).Perm (l.filter (fun s => !isUnknown s)) :=
    List.perm_insertionSort _ _
  have h2 := List.filter_append_perm (fun s => !isUnknown s) l
  have h3 : (fun s => !(!isUnknown s)) = (fun s => isUnknown s) := by
    funext s
    simp
  rw [h3] at h2
  exact (h1.append_right _).trans h2

/-- The Unknown segments of a lifted stack are exactly the Unknown
segments of the input, in order. -/
theorem liftStack_filter_isUnknown (l : List Seg) :
    (liftStack l).filter (fun s => isUnknown s) = l.filter (fun s => isUnknown s) := by
  unfold liftStack
  rw [List.filter_append]
  have h1 : (List.insertionSort segDescOrder
      (l.filter (fun s => !isUnknown s))).filter (fun s => isUnknown s) = [] := by
    apply List.filter_eq_nil_iff.mpr
    intro a ha
    have hf : isUnknown a = false := mem_insertionSort_filter ha
    simp [hf]
  have h2 : (l.filter (fun s => isUnknown s)).filter (fun s => isUnknown s)
      = l.filter (fun s => isUnknown s) := by
    apply List.filter_eq_self.mpr
    intro a ha
    exact (List.mem_filter.mp ha).2
  rw [h1, h2, List.nil_append]

/-- The non-Unknown part of a lifted stack is the insertion sort of the
non-Unknown input segments. -/
theorem liftStack_filter_not_isUnknown (l : List Seg) :
    (liftStack l).filter (fun s => !isUnknown s) =
      List.insertionSort segDescOrder (l.filter (fun s => !isUnknown s)) := by
  unfold liftStack
  rw [List.filter_append]
  have h1 : (List.insertionSort segDescOrder
      (l.filter (fun s => !isUnknown s))).filter (fun s => !isUnknown s)
      = List.insertionSort segDescOrder (l.filter (fun s => !isUnknown s)) := by
    apply List.filter_eq_self.mpr
    intro a ha
    have hf : isUnknown a = false := mem_insertionSort_filter ha
    simp [hf]
  have h2 : (l.filter (fun s => isUnknown s)).filter (fun s => !isUnknown s) = [] := by
    apply List.filter_eq_nil_iff.mpr
    intro a ha
    have h3 := (List.mem_filter.mp ha).2
    simp [h3]
  rw [h1, h2, List.append_nil]

/-- A lifted stack is its non-Unknown part followed by its Unknown part. -/
theorem liftStack_split (l : List Seg) :
    liftStack l = (liftStack l).filter (fun s => !isUnknown s)
      ++ (liftStack l).filter (fun s => isUnknown s) := by
  rw [liftStack_filter_not_isUnknown, liftStack_filter_isUnknown]
  rfl

/-- The non-Unknown part of a lifted stack is descending in value. -/
theorem liftStack_chain (l : List Seg) :
    List.Chain' (fun a b : Seg => b.v ≤ a.v)
      ((liftStack l).filter (fun s => !isUnknown s)) := by
  rw [liftStack_filter_not_isUnknown]
  have h := List.sorted_insertionSort segDescOrder (l.filter (fun s => !isUnknown s))
  exact (List.Pairwise.imp (fun hab => hab) h).chain'

/-- The Unknown part of the raw cation stack. -/
theorem cationsRaw_filter (vals : GGVals) :
    (cationsRaw vals).filter (fun s => isUnknown s) =
      if orZero vals.sig < -0.0001 then [⟨IonKey.Unknown, |orZero vals.sig|⟩] else [] := by
  simp only [cationsRaw]
  split_ifs with h
  · simp [isUnknown]
  · simp [isUnknown]

/-- The Unknown part of the raw anion stack. -/
theorem anionsRaw_filter (vals : GGVals) :
    (anionsRaw vals).filter (fun s => isUnknown s) =
      if (0.0001:ℝ) < orZero vals.sig then [⟨IonKey.Unknown, orZero vals.sig⟩] else [] := by
  simp only [anionsRaw]
  split_ifs with h
  · simp [isUnknown]
  · simp [isUnknown]

/-- The Unknown part of the built cation stack. -/
theorem buildStacks_fst_filter (vals : GGVals) :
    ((buildStacks vals).1).filter (fun s => isUnknown s) =
      if orZero vals.sig < -0.0001 then [⟨IonKey.Unknown, |orZero vals.sig|⟩] else [] := by
  show (liftStack (cationsRaw vals)).filter (fun s => isUnknown s) = _
  rw [liftStack_filter_isUnknown, cationsRaw_filter]

/-- The Unknown part of the built anion stack. -/
theorem buildStacks_snd_filter (vals : GGVals) :
    ((buildStacks vals).2).filter (fun s => isUnknown s) =
      if (0.0001:ℝ) < orZero vals.sig then [⟨IonKey.Unknown, orZero vals.sig⟩] else [] := by
  show (liftStack (anionsRaw vals)).filter (fun s => isUnknown s) = _
  rw [liftStack_filter_isUnknown, anionsRaw_filter]

/- ──────────────────────────  claim theorems (pipeline)  ────────── -/

/-- C2: by construction, `sig = sidA - sidE` exactly, with
`sidE = effectiveHCO3 + AlbuminCharge + PhosphateCharge`; there is no
independent computation path for SIG. -/
theorem claim_C2 :
    ∀ inp : Inputs, sigOf inp = sidA inp - sidE inp ∧
      sidE inp = orZero (effHCO3 inp) + albMinusOf inp + piMinusOf inp :=
  fun _ => ⟨rfl, rfl⟩

/-- C1: the Aggregator computes `SIDa = Na + K + 2*iCa + 2*Mg - Cl -
Lactate`, and the factor 2 on the divalent cations is applied exactly
once: the iCa / Mg segments of the built cation stack carry exactly
`2 * iCa` and `2 * Mg` (the Stack Builder adds no further factor). -/
theorem claim_C1 :
    ∀ inp : Inputs,
      sidA inp = orZero inp.Na + orZero inp.K + 2 * orZero inp.iCa
        + 2 * orZero inp.Mg - orZero inp.Cl - orZero inp.Lac ∧
      ((buildStacks (ggPayload inp)).1).Perm
        ([⟨IonKey.Na, orZero inp.Na⟩, ⟨IonKey.K, orZero inp.K⟩,
          ⟨IonKey.iCa, 2 * orZero inp.iCa⟩, ⟨IonKey.Mg, 2 * orZero inp.Mg⟩] ++
          if sigR inp < -0.0001 then [⟨IonKey.Unknown, |sigR inp|⟩] else []) := by
  intro inp
  have he : cationsRaw (ggPayload inp) =
      [⟨IonKey.Na, orZero inp.Na⟩, ⟨IonKey.K, orZero inp.K⟩,
        ⟨IonKey.iCa, 2 * orZero inp.iCa⟩, ⟨IonKey.Mg, 2 * orZero inp.Mg⟩] ++
        (if sigR inp < -0.0001 then [⟨IonKey.Unknown, |sigR inp|⟩] else []) := by
    simp only [cationsRaw, ggPayload, orZero, Option.getD_some]
    split_ifs <;> simp
  refine ⟨rfl, ?_⟩
  rw [← he]
  exact liftStack_perm _

/-- C6: the Stack Builder appends an Unknown anion segment of value
`sigR` exactly when the rounded SIG exceeds 0.0001, an Unknown cation
segment of value `|sigR|` exactly when it is below -0.0001, and none
within the epsilon band; the value used is the rounded `sigR =
round10 sig`, not the raw SIG. -/
theorem claim_C6 :
    ∀ inp : Inputs,
      sigR inp = round10 (sigOf inp) ∧
      ((buildStacks (ggPayload inp)).2).filter (fun s => isUnknown s) =
        (if (0.0001:ℝ) < sigR inp then [⟨IonKey.Unknown, sigR inp⟩] else []) ∧
      ((buildStacks (ggPayload inp)).1).filter (fun s => isUnknown s) =
        (if sigR inp < -0.0001 then [⟨IonKey.Unknown, |sigR inp|⟩] else []) := by
  intro inp
  refine ⟨rfl, ?_, ?_⟩
  · rw [buildStacks_snd_filter]
    rfl
  · rw [buildStacks_fst_filter]
    rfl

/-- C7: in both built stacks, the non-Unknown segments are sorted
descending by value (each is ≥ the next), and the Unknown segments (at
most one) always come last regardless of magnitude. -/
theorem claim_C7 :
    ∀ vals : GGVals,
      (List.Chain' (fun a b : Seg => b.v ≤ a.v)
          (((buildStacks vals).1).filter (fun s => !isUnknown s)) ∧
        (buildStacks vals).1 = ((buildStacks vals).1).filter (fun s => !isUnknown s)
          ++ ((buildStacks vals).1).filter (fun s => isUnknown s) ∧
        (((buildStacks vals).1).filter (fun s => isUnknown s)).length ≤ 1) ∧
      (List.Chain' (fun a b : Seg => b.v ≤ a.v)
          (((buildStacks vals).2).filter (fun s => !isUnknown s)) ∧
        (buildStacks vals).2 = ((buildStacks vals).2).filter (fun s => !isUnknown s)
          ++ ((buildStacks vals).2).filter (fun s => isUnknown s) ∧
        (((buildStacks vals).2).filter (fun s => isUnknown s)).length ≤ 1) := by
  intro vals
  constructor
  · refine ⟨liftStack_chain _, liftStack_split _, ?_⟩
    rw [buildStacks_fst_filter]
    split_ifs <;> simp
  · refine ⟨liftStack_chain _, liftStack_split _, ?_⟩
    rw [buildStacks_snd_filter]
    split_ifs <;> simp

/-- C8: for each dual-unit ion (Mg, iCa, Lactate, Phosphate), converting
a conventional mg/dL value to SI and back (`siToDisplay` after
`displayToSI`, factors 10/24.305, 10/40.08, 10/89.07, 10/30.97) returns
the original value within 1e-6 (exactly, over the reals). -/
theorem claim_C8 :
    ∀ v : ℝ,
      |siToDisplay ConvId.mg (displayToSI ConvId.mg v UnitTag.mgdl) UnitTag.mgdl - v|
        ≤ 0.000001 ∧
      |siToDisplay ConvId.ica (displayToSI ConvId.ica v UnitTag.mgdl) UnitTag.mgdl - v|
        ≤ 0.000001 ∧
      |siToDisplay ConvId.lac (displayToSI ConvId.lac v UnitTag.mgdl) UnitTag.mgdl - v|
        ≤ 0.000001 ∧
      |siToDisplay ConvId.phos (displayToSI ConvId.phos v UnitTag.mgdl) UnitTag.mgdl - v|
        ≤ 0.000001 := by
  intro v
  have hmg : MG_FACTOR ≠ 0 := by norm_num [MG_FACTOR]
  have hca : CA_FACTOR ≠ 0 := by norm_num [CA_FACTOR]
  have hlac : LAC_FACTOR ≠ 0 := by norm_num [LAC_FACTOR]
  have hpo4 : PO4_FACTOR ≠ 0 := by norm_num [PO4_FACTOR]
  refine ⟨?_, ?_, ?_, ?_⟩
  · show |v * MG_FACTOR / MG_FACTOR - v| ≤ 0.000001
    rw [mul_div_cancel_right₀ v hmg, sub_self, abs_zero]
    norm_num
  · show |v * CA_FACTOR / CA_FACTOR - v| ≤ 0.000001
    rw [mul_div_cancel_right₀ v hca, sub_self, abs_zero]
    norm_num
  · show |v * LAC_FACTOR / LAC_FACTOR - v| ≤ 0.000001
    rw [mul_div_cancel_right₀ v hlac, sub_self, abs_zero]
    norm_num
  · show |v * PO4_FACTOR / PO4_FACTOR - v| ≤ 0.000001
    rw [mul_div_cancel_right₀ v hpo4, sub_self, abs_zero]
    norm_num
